import Mathlib

/-!
Shallow embedding of the MALWallFinder front-end pipeline
(`src/unnamed/part_000`, the canonical variant of `static/script.js`):
the `fetchWallpapers` request/classify/display flow and the
`displayResults` sort/filter/render transform, together with theorems
settling the specification claims.

JavaScript objects are modelled as association lists in key-enumeration
order with distinct keys; JSON values occurring in payloads are either
strings or group objects; absent object fields are `Option.none`.
`localeCompare` is an external locale-dependent total comparison and is
therefore a parameter `lc : String → String → Ordering` of every
definition that sorts.
-/

namespace MWF

/-- One wallpaper entry `{thumbnail, full}` of a group. -/
structure Wallpaper where
  thumbnail : String
  full : String
deriving Repr, DecidableEq

/-- A group object of the success payload. Each field may be absent in
the raw JSON, hence the `Option`s (`display_title`, `mal_cover`,
`wallpapers` are the field names used by the code). -/
structure AnimeData where
  display_title : Option String
  mal_cover : Option String
  wallpapers : Option (List Wallpaper)
deriving Repr, DecidableEq

/-- A JSON value stored under a payload key: either a string or a group
object (the shapes the pipeline distinguishes). -/
inductive JVal where
  | str : String → JVal
  | obj : AnimeData → JVal
deriving Repr, DecidableEq

/-- JavaScript truthiness of a payload value: a string is truthy iff
nonempty, an object is always truthy. -/
def truthy : JVal → Bool
  | .str s => !s.isEmpty
  | .obj _ => true

/-- Duck-typed read of `v.display_title`: `undefined` on strings. -/
def JVal.display_title : JVal → Option String
  | .str _ => none
  | .obj g => g.display_title

/-- Duck-typed read of `v.mal_cover`. -/
def JVal.mal_cover : JVal → Option String
  | .str _ => none
  | .obj g => g.mal_cover

/-- Duck-typed read of `v.wallpapers`. -/
def JVal.wallpapers : JVal → Option (List Wallpaper)
  | .str _ => none
  | .obj g => g.wallpapers

/-- A 2xx JSON payload: a JavaScript object in key-enumeration order. -/
abbrev Payload := List (String × JVal)

/-- Characters removed by `String.prototype.trim` (ASCII core of the
JavaScript white-space set, which suffices for the claims). -/
def jsWhitespaceChar (c : Char) : Bool :=
  c == ' ' || c == '\t' || c == '\n' || c == '\r'

/-- Model of `input.trim()`: drop leading and trailing white space. -/
def jsTrim (s : String) : String :=
  String.mk (((s.data.dropWhile jsWhitespaceChar).reverse.dropWhile jsWhitespaceChar).reverse)

/-- `charsPre pat l` is true iff `pat` starts `l` (character-wise). -/
def charsPre : List Char → List Char → Bool
  | [], _ => true
  | _ :: _, [] => false
  | a :: as, b :: bs => a == b && charsPre as bs

/-- `charsIncl pat l` is true iff `pat` occurs contiguously in `l`. -/
def charsIncl (pat : List Char) : List Char → Bool
  | [] => pat.isEmpty
  | c :: rest => charsPre pat (c :: rest) || charsIncl pat rest

/-- Model of `s.includes(pat)` on strings. -/
def strIncludes (s pat : String) : Bool :=
  charsIncl pat.data s.data

/-- Model of `s.toLowerCase()` (ASCII case folding, which covers every
string the classifier inspects). -/
def strLower (s : String) : String :=
  String.mk (s.data.map Char.toLower)

/-- JavaScript `a || b` on strings: the first truthy (nonempty) one. -/
def jsOrS (a b : String) : String :=
  if a == "" then b else a

/-- Read a string field of a parsed error body; an absent field
(`undefined`) is conflated with `""` — both are falsy and the code only
ever tests the result for truthiness or uses it when nonempty. -/
def fieldStr (body : List (String × String)) (k : String) : String :=
  ((body.find? (fun e => e.1 == k)).map (fun e => e.2)).getD ""

/-- The error kinds of the specification's `ResponseClassifier`,
identified with the three message-selecting branches of the code's
non-2xx handler. -/
inductive ErrorKind where
  | userNotFound
  | throttled
  | upstream
deriving Repr, DecidableEq

/-- The message built for a 404 whose resolved error text mentions
"mal user not found". -/
def userNotFoundMsg (username : String) : String :=
  "MyAnimeList user \x27" ++ username ++ "\x27 not found or profile is private. Please check the username and MAL visibility settings."

/-- The message built for a 503 or a resolved error text mentioning
"rate limited". -/
def throttledMsg (status : Nat) : String :=
  "The service is currently busy or rate-limited. Please wait a moment and try again. (" ++ toString status ++ ")"

/-- `detailedError = errorData.error || errorData.message || ''`;
an unparseable body (`none`) leaves it empty. -/
def detailedError (body : Option (List (String × String))) : String :=
  match body with
  | none => ""
  | some fields => jsOrS (fieldStr fields "error") (fieldStr fields "message")

/-- The error message in force before the status-specific branches:
the detailed body text if truthy, else `Error {status}: {statusText}`. -/
def resolvedMsg (status : Nat) (statusText : String)
    (body : Option (List (String × String))) : String :=
  let base := "Error " ++ toString status ++ ": " ++ statusText
  let det := detailedError body
  if det == "" then base else det

/-- The non-2xx branch of `fetchWallpapers` in `part_000`: resolve a
message from the body, then classify by status / message text. The
`ErrorKind` names which branch fired. -/
def classifyError (username : String) (status : Nat) (statusText : String)
    (body : Option (List (String × String))) : ErrorKind × String :=
  let det := detailedError body
  let msg := resolvedMsg status statusText body
  if status == 404 && strIncludes (strLower msg) "mal user not found" then
    (.userNotFound, userNotFoundMsg username)
  else if status == 503 || strIncludes (strLower msg) "rate limited" then
    (.throttled, throttledMsg status)
  else if det == "" then
    (.upstream, msg ++ ". Please check the logs or try again later.")
  else
    (.upstream, msg)

/-- One rendered wallpaper item: an anchor wrapping a thumbnail image,
with a visibility flag (the `onerror` handler of a thumbnail sets its
anchor's display to `none`). -/
structure RenderedItem where
  thumbnail : String
  full : String
  visible : Bool
deriving Repr, DecidableEq

/-- One rendered group: header (title, optional cover) plus the grid of
items. -/
structure RenderedGroup where
  display_title : Option String
  mal_cover : Option String
  headerVisible : Bool
  items : List RenderedItem
deriving Repr, DecidableEq

/-- The UI mode after one interaction: which of the mutually exclusive
display regions is showing, and with what content. `showingInfo` carries
the raw value handed to `displayInfo` (always a string except in the
single-key `message` dispatch, where it can be any payload value). -/
inductive UIMode where
  | idle
  | loading
  | showingError (msg : String)
  | showingInfo (v : JVal)
  | showingResults (model : List RenderedGroup)
deriving Repr, DecidableEq

/-- Whether a mode is the informational one. -/
def isShowingInfo : UIMode → Bool
  | .showingInfo _ => true
  | _ => false

/-- Whether a mode is the error one. -/
def isShowingError : UIMode → Bool
  | .showingError _ => true
  | _ => false

/-- The sort key `data[k].display_title` used by the comparator. The
`"undefined"` default is the string JavaScript would use for a missing
title on the argument side; it is never consulted in any result this
model certifies, because `displayResults` answers only when the
comparator is either never invoked (at most one key) or only ever sees
present titles. -/
def titleKey (e : String × JVal) : String :=
  (e.2.display_title).getD "undefined"

/-- The boolean order a comparator induces on strings: `s` may precede
`t` iff the comparison verdict is not `gt` (a non-positive comparator
return in JavaScript). -/
def leOrd (lc : String → String → Ordering) (s t : String) : Bool :=
  match lc s t with
  | .gt => false
  | _ => true

/-- Two titles compare equal under the locale comparison: neither is
ordered strictly after the other. These are the comparator's ties, the
equivalence classes a stable sort must keep in input order — broader
than literal string equality for a locale-aware comparison. -/
def ordTie (lc : String → String → Ordering) (s t : String) : Bool :=
  leOrd lc s t && leOrd lc t s

/-- The boolean order induced by the comparator
`(a, b) => data[a].display_title.localeCompare(data[b].display_title)`:
`e₁` may precede `e₂` iff the comparison is not `gt`. A stable sort by
this relation is the ECMAScript-specified result of `Array.prototype.sort`
with a consistent comparator. -/
def titleLe (lc : String → String → Ordering) (e₁ e₂ : String × JVal) : Bool :=
  leOrd lc (titleKey e₁) (titleKey e₂)

/-- The per-group guard of the render loop:
`if (!animeData || !animeData.wallpapers || animeData.wallpapers.length === 0) return;`
— an entry is rendered iff its value is truthy and carries a nonempty
`wallpapers` list. -/
def renderable (e : String × JVal) : Bool :=
  truthy e.2 && (match e.2.wallpapers with
                 | none => false
                 | some ws => !ws.isEmpty)

/-- The DOM subtree built for one renderable entry: header (optional
cover, title) and the grid of items, everything initially visible. -/
def mkGroup (e : String × JVal) : RenderedGroup :=
  { display_title := e.2.display_title
    mal_cover := e.2.mal_cover
    headerVisible := true
    items := (e.2.wallpapers.getD []).map
      (fun w => { thumbnail := w.thumbnail, full := w.full, visible := true }) }

/-- The order-and-filter transform of `displayResults`: sort the entries
by display title (stable, ascending) and keep the renderable ones. -/
def transform (lc : String → String → Ordering) (data : Payload) : Payload :=
  (data.mergeSort (titleLe lc)).filter renderable

/-- `displayResults(data)` in `part_000`. The sorted key sequence is
modelled by sorting the entry list itself (keys are distinct). With at
least two keys and some value lacking `display_title`, the comparator
dereferences `undefined` and the outcome is engine-dependent (possibly a
TypeError), so the model answers `none` there; everywhere else the
result is the JavaScript one: `displayInfo("No results to display.")`
when there are no keys, else the sorted, filtered render model. -/
def displayResults (lc : String → String → Ordering) (data : Payload) : Option UIMode :=
  if data.length ≤ 1 || data.all (fun e => (e.2.display_title).isSome) then
    if data.isEmpty then
      some (.showingInfo (.str "No results to display."))
    else
      some (.showingResults ((transform lc data).map mkGroup))
  else
    none

/-- `displayInfo` for the empty-payload dispatch branch. -/
def noWallpapersMsg (username : String) : String :=
  "Could not find any relevant wallpapers for " ++ username ++ "\x27s completed list on Wallhaven."

/-- The validation message for a blank identifier. -/
def blankMsg : String := "Please enter a MAL username."

/-- Look up `data.message`. -/
def lookupJ (data : Payload) (k : String) : Option JVal :=
  ((data.find? (fun e => e.1 == k)).map (fun e => e.2))

/-- The 2xx dispatch of `fetchWallpapers`:
`data.message && Object.keys(data).length === 1` shows the message as
info; an empty mapping shows the no-wallpapers info; anything else is
handed to `displayResults`. -/
def processOk (lc : String → String → Ordering) (username : String)
    (data : Payload) : Option UIMode :=
  match lookupJ data "message" with
  | some v =>
    if truthy v && data.length == 1 then some (.showingInfo v)
    else if data.isEmpty then some (.showingInfo (.str (noWallpapersMsg username)))
    else displayResults lc data
  | none =>
    if data.isEmpty then some (.showingInfo (.str (noWallpapersMsg username)))
    else displayResults lc data

/-- The transport outcome of the single `fetch`: a 2xx JSON payload, a
2xx body that fails to parse (with the parse error's message), a non-2xx
response with status, status text and optional parsed string-field body,
or a transport failure (with the rejection's message). -/
inductive Response where
  | ok (data : Payload)
  | okBadJson (emsg : String)
  | err (status : Nat) (statusText : String) (body : Option (List (String × String)))
  | networkFailure (emsg : String)
deriving Repr, DecidableEq

/-- What the `try`/`catch` of `fetchWallpapers` displays for a response,
given the already-trimmed username: the 2xx dispatch, or
`displayError("An error occurred: " + message)` for every thrown error. -/
def processResponse (lc : String → String → Ordering) (username : String) :
    Response → Option UIMode
  | .ok data => processOk lc username data
  | .okBadJson emsg => some (.showingError ("An error occurred: " ++ emsg))
  | .err status statusText body =>
      some (.showingError ("An error occurred: " ++ (classifyError username status statusText body).2))
  | .networkFailure emsg => some (.showingError ("An error occurred: " ++ emsg))

/-- A snapshot of the interactive surface at a quiescent point: the
display mode and whether the input field and the trigger button are
enabled. -/
structure UIConfig where
  mode : UIMode
  inputEnabled : Bool
  buttonEnabled : Bool
deriving Repr, DecidableEq

/-- The page before any submission. -/
def idleCfg : UIConfig := ⟨.idle, true, true⟩

/-- The configuration while the request is outstanding:
`fetchButton.disabled = true; usernameInput.disabled = true;`. -/
def loadingCfg : UIConfig := ⟨.loading, false, false⟩

/-- The configuration after the `finally` block: loading hidden and both
controls re-enabled, whatever mode was displayed. -/
def doneCfg (m : UIMode) : UIConfig := ⟨m, true, true⟩

/-- One run of `fetchWallpapers`: whether the network request was
issued, the configuration in force at the instant it was issued, the
chronological quiescent snapshots, and the final one. -/
structure Run where
  requestMade : Bool
  atRequest : Option UIConfig
  trace : List UIConfig
  final : UIConfig
deriving Repr, DecidableEq

/-- `fetchWallpapers()` in `part_000` for one submission: trim the
input; a blank identifier displays the validation error and returns
before any request; otherwise the controls are disabled, the request is
issued, the response is dispatched, and the `finally` block re-enables
the controls. `none` only on the engine-dependent region of
`displayResults`. -/
def fetchWallpapers (lc : String → String → Ordering) (input : String)
    (resp : Response) : Option Run :=
  let username := jsTrim input
  if username == "" then
    some { requestMade := false, atRequest := none,
           trace := [idleCfg, doneCfg (.showingError blankMsg)],
           final := doneCfg (.showingError blankMsg) }
  else
    (processResponse lc username resp).map fun m =>
      { requestMade := true, atRequest := some loadingCfg,
        trace := [idleCfg, loadingCfg, doneCfg m],
        final := doneCfg m }

/-- Replace the element at position `n` (no-op out of range). -/
def modifyAt (f : α → α) : Nat → List α → List α
  | _, [] => []
  | 0, x :: xs => f x :: xs
  | n + 1, x :: xs => x :: modifyAt f n xs

/-- Hide one item of one group of a render model: the effect of the
thumbnail `onerror` handler
`(e) => { e.target.closest('a').style.display = 'none'; }`. -/
def hideItem (m : List RenderedGroup) (g i : Nat) : List RenderedGroup :=
  modifyAt (fun grp => { grp with items := modifyAt (fun it => { it with visible := false }) i grp.items }) g m

/-- The whole effect of a thumbnail load failure on the UI: the handler
touches only the style of its own anchor, so only the model of a results
mode changes and every other mode is untouched. -/
def onThumbError (st : UIMode) (g i : Nat) : UIMode :=
  match st with
  | .showingResults m => .showingResults (hideItem m g i)
  | other => other

/-- The fixed comparator used to instantiate `lc` in concrete runs:
every comparison answers `eq` (a legal consistent comparator; the
concrete claims it witnesses never depend on the comparison's verdict). -/
def lcEq : String → String → Ordering := fun _ _ => Ordering.eq

/-- The render model slot `m[g].items[i]`. -/
def itemAt (m : List RenderedGroup) (g i : Nat) : Option RenderedItem :=
  (m[g]?).bind (fun grp => grp.items[i]?)

theorem modifyAt_getElem?_self (f : α → α) :
    ∀ (n : Nat) (l : List α), (modifyAt f n l)[n]? = (l[n]?).map f
  | _, [] => by simp [modifyAt]
  | 0, x :: xs => by simp [modifyAt]
  | n + 1, x :: xs => by
    simp only [modifyAt, List.getElem?_cons_succ]
    exact modifyAt_getElem?_self f n xs

theorem modifyAt_getElem?_ne (f : α → α) :
    ∀ (k n : Nat) (l : List α), k ≠ n → (modifyAt f n l)[k]? = l[k]?
  | _, _, [], _ => by simp [modifyAt]
  | 0, 0, x :: xs, h => absurd rfl h
  | 0, n + 1, x :: xs, _ => by simp [modifyAt]
  | k + 1, 0, x :: xs, _ => by simp [modifyAt]
  | k + 1, n + 1, x :: xs, h => by
    simp only [modifyAt, List.getElem?_cons_succ]
    exact modifyAt_getElem?_ne f k n xs (fun hk => h (congrArg Nat.succ hk))

theorem displayResults_ne_loading {lc : String → String → Ordering}
    {data : Payload} {m : UIMode} (h : displayResults lc data = some m) :
    m ≠ .loading := by
  unfold displayResults at h
  split at h
  · split at h <;> (injection h with h2; subst h2; nofun)
  · exact absurd h (by simp)

theorem processOk_ne_loading {lc : String → String → Ordering}
    {u : String} {data : Payload} {m : UIMode}
    (h : processOk lc u data = some m) : m ≠ .loading := by
  unfold processOk at h
  split at h
  · split at h
    · injection h with h2; subst h2; nofun
    · split at h
      · injection h with h2; subst h2; nofun
      · exact displayResults_ne_loading h
  · split at h
    · injection h with h2; subst h2; nofun
    · exact displayResults_ne_loading h

theorem processResponse_ne_loading {lc : String → String → Ordering}
    {u : String} {resp : Response} {m : UIMode}
    (h : processResponse lc u resp = some m) : m ≠ .loading := by
  cases resp with
  | ok data => exact processOk_ne_loading h
  | okBadJson emsg => injection h with h2; subst h2; nofun
  | err status statusText body => injection h with h2; subst h2; nofun
  | networkFailure emsg => injection h with h2; subst h2; nofun

theorem classify_404_mal_user_not_found (u statusText : String) :
    classifyError u 404 statusText (some [("error", "mal user not found")])
      = (.userNotFound, userNotFoundMsg u) := rfl

/-- C6: a submitted identifier that is empty or whitespace-only after
trimming makes no network request and leaves the UI in the error state
with the validation message "Please enter a MAL username.". -/
theorem claim_C6_blank_identifier (lc : String → String → Ordering)
    (input : String) (resp : Response) (h : jsTrim input = "") :
    fetchWallpapers lc input resp
      = some { requestMade := false, atRequest := none,
               trace := [idleCfg, doneCfg (.showingError blankMsg)],
               final := doneCfg (.showingError blankMsg) } := by
  unfold fetchWallpapers
  simp [h]

/-- Witness for C6 at the concrete whitespace-only input `"   "`. -/
theorem claim_C6_blank_identifier_witness :
    jsTrim "   " = ""
    ∧ fetchWallpapers lcEq "   " (.ok [])
        = some { requestMade := false, atRequest := none,
                 trace := [idleCfg, doneCfg (.showingError blankMsg)],
                 final := doneCfg (.showingError blankMsg) } :=
  ⟨by decide, claim_C6_blank_identifier lcEq "   " (.ok []) (by decide)⟩

/-- C4: a 404 response whose body carries the error text
"mal user not found" classifies to the `userNotFound` kind, and the
displayed error message contains the submitted (trimmed) identifier. -/
theorem claim_C4_user_not_found (lc : String → String → Ordering)
    (input statusText : String) (h : jsTrim input ≠ "") :
    (classifyError (jsTrim input) 404 statusText (some [("error", "mal user not found")])).1
        = .userNotFound
    ∧ (classifyError (jsTrim input) 404 statusText (some [("error", "mal user not found")])).2
        = userNotFoundMsg (jsTrim input)
    ∧ (∃ pre post, userNotFoundMsg (jsTrim input) = pre ++ (jsTrim input ++ post))
    ∧ fetchWallpapers lc input (.err 404 statusText (some [("error", "mal user not found")]))
        = some { requestMade := true, atRequest := some loadingCfg,
                 trace := [idleCfg, loadingCfg,
                   doneCfg (.showingError ("An error occurred: " ++ userNotFoundMsg (jsTrim input)))],
                 final := doneCfg (.showingError ("An error occurred: " ++ userNotFoundMsg (jsTrim input))) } := by
  refine ⟨rfl, rfl, ⟨"MyAnimeList user \x27", "\x27 not found or profile is private. Please check the username and MAL visibility settings.", rfl⟩, ?_⟩
  unfold fetchWallpapers
  simp [h, processResponse, classify_404_mal_user_not_found]

/-- Witness for C4 at the concrete identifier `"bob"`. -/
theorem claim_C4_user_not_found_witness :
    jsTrim "bob" ≠ ""
    ∧ ((classifyError (jsTrim "bob") 404 "Not Found" (some [("error", "mal user not found")])).1
        = .userNotFound
      ∧ (classifyError (jsTrim "bob") 404 "Not Found" (some [("error", "mal user not found")])).2
          = userNotFoundMsg (jsTrim "bob")
      ∧ (∃ pre post, userNotFoundMsg (jsTrim "bob") = pre ++ (jsTrim "bob" ++ post))
      ∧ fetchWallpapers lcEq "bob" (.err 404 "Not Found" (some [("error", "mal user not found")]))
          = some { requestMade := true, atRequest := some loadingCfg,
                   trace := [idleCfg, loadingCfg,
                     doneCfg (.showingError ("An error occurred: " ++ userNotFoundMsg (jsTrim "bob")))],
                   final := doneCfg (.showingError ("An error occurred: " ++ userNotFoundMsg (jsTrim "bob"))) }) :=
  ⟨by decide, claim_C4_user_not_found lcEq "bob" "Not Found" (by decide)⟩

/-- C5 counterexample: status 429 (the rate-limiting status) with an
error body that does not mention "rate limited" is classified
`upstream`, not `throttled` — refuting the claim for rate-limiting
statuses other than 503. -/
theorem claim_C5_counterexample :
    (classifyError "bob" 429 "Too Many Requests" (some [("error", "too many requests")])).1
      = .upstream
    ∧ (classifyError "bob" 429 "Too Many Requests" (some [("error", "too many requests")])).1
        ≠ .throttled := by
  decide

/-- C5 (amended): every status-503 response, whatever its body,
classifies to `throttled` with the busy/rate-limited retry message; a
status-429 response classifies to `throttled` only when its resolved
message text mentions "rate limited", and to `upstream` otherwise. -/
theorem claim_C5_amended (u statusText : String)
    (body : Option (List (String × String)))
    (h429 : strIncludes (strLower (resolvedMsg 429 statusText body)) "rate limited" = false) :
    classifyError u 503 statusText body = (.throttled, throttledMsg 503)
    ∧ (classifyError u 429 statusText body).1 = .upstream := by
  constructor
  · rfl
  · unfold classifyError
    simp only [h429]
    split
    · rename_i hcontra
      simp at hcontra
    · simp only [Bool.or_false]
      split
      · rename_i hcontra
        simp at hcontra
      · split <;> rfl

/-- Witness for C5 (amended) at a concrete 429 body. -/
theorem claim_C5_amended_witness :
    strIncludes (strLower (resolvedMsg 429 "Too Many Requests" (some [("error", "too many requests")]))) "rate limited" = false
    ∧ (classifyError "bob" 503 "Too Many Requests" (some [("error", "too many requests")])
          = (.throttled, throttledMsg 503)
      ∧ (classifyError "bob" 429 "Too Many Requests" (some [("error", "too many requests")])).1
          = .upstream) :=
  ⟨by decide, claim_C5_amended "bob" "Too Many Requests" (some [("error", "too many requests")]) (by decide)⟩

/-- C10: a 2xx payload that is exactly `{"message": v}` with `v` truthy
is displayed as informational — in particular when `v` is a group
object (always truthy), which is therefore never rendered as results. -/
theorem claim_C10_single_message_key (lc : String → String → Ordering)
    (input : String) (v : JVal) (hv : truthy v = true) (h : jsTrim input ≠ "") :
    fetchWallpapers lc input (.ok [("message", v)])
      = some { requestMade := true, atRequest := some loadingCfg,
               trace := [idleCfg, loadingCfg, doneCfg (.showingInfo v)],
               final := doneCfg (.showingInfo v) }
    ∧ (∀ g : AnimeData, truthy (.obj g) = true)
    ∧ isShowingInfo (.showingInfo v) = true
    ∧ (∀ mdl, (UIMode.showingInfo v) ≠ .showingResults mdl) := by
  refine ⟨?_, fun g => rfl, rfl, fun mdl => nofun⟩
  unfold fetchWallpapers
  simp [h, processResponse, processOk, lookupJ, hv]

/-- Witness for C10: the payload stores a legitimate group object under
the key `"message"`. -/
theorem claim_C10_single_message_key_witness :
    truthy (.obj ⟨some "T", none, some [⟨"t", "f"⟩]⟩) = true
    ∧ jsTrim "u" ≠ ""
    ∧ (fetchWallpapers lcEq "u" (.ok [("message", .obj ⟨some "T", none, some [⟨"t", "f"⟩]⟩)])
        = some { requestMade := true, atRequest := some loadingCfg,
                 trace := [idleCfg, loadingCfg,
                   doneCfg (.showingInfo (.obj ⟨some "T", none, some [⟨"t", "f"⟩]⟩))],
                 final := doneCfg (.showingInfo (.obj ⟨some "T", none, some [⟨"t", "f"⟩]⟩)) }
      ∧ (∀ g : AnimeData, truthy (.obj g) = true)
      ∧ isShowingInfo (.showingInfo (.obj ⟨some "T", none, some [⟨"t", "f"⟩]⟩)) = true
      ∧ (∀ mdl, (UIMode.showingInfo (.obj ⟨some "T", none, some [⟨"t", "f"⟩]⟩)) ≠ .showingResults mdl)) :=
  ⟨rfl, by decide,
    claim_C10_single_message_key lcEq "u" (.obj ⟨some "T", none, some [⟨"t", "f"⟩]⟩) rfl (by decide)⟩

/-- C7: along every run, the input field and the trigger button are
enabled exactly in the non-`loading` snapshots; a non-blank submission
disables both controls at the instant the request is issued; and the
final snapshot of every run has both controls re-enabled and is not
`loading`. -/
theorem claim_C7_controls_invariant (lc : String → String → Ordering)
    (input : String) (resp : Response) (r : Run)
    (h : fetchWallpapers lc input resp = some r) :
    (∀ c ∈ r.trace, ((c.inputEnabled && c.buttonEnabled) = true ↔ c.mode ≠ .loading))
    ∧ (r.requestMade = true → r.atRequest = some loadingCfg)
    ∧ (jsTrim input ≠ "" → r.requestMade = true)
    ∧ r.final.inputEnabled = true ∧ r.final.buttonEnabled = true ∧ r.final.mode ≠ .loading := by
  unfold fetchWallpapers at h
  by_cases hb : jsTrim input = ""
  · rw [if_pos (by simp [hb])] at h
    injection h with h
    subst h
    refine ⟨?_, ?_, ?_, rfl, rfl, ?_⟩
    · intro c hc
      simp only [List.mem_cons, List.not_mem_nil, or_false] at hc
      rcases hc with rfl | rfl <;> decide
    · intro hr
      exact absurd hr (by decide)
    · intro hne
      exact absurd hb hne
    · nofun
  · rw [if_neg (by simpa using hb)] at h
    rcases Option.map_eq_some'.mp h with ⟨m, hm, hr⟩
    have hml : m ≠ .loading := processResponse_ne_loading hm
    subst hr
    refine ⟨?_, fun _ => rfl, fun _ => rfl, rfl, rfl, hml⟩
    intro c hc
    simp only [List.mem_cons, List.not_mem_nil, or_false] at hc
    rcases hc with rfl | rfl | rfl
    · decide
    · decide
    · exact ⟨fun _ => hml, fun _ => rfl⟩

/-- Witness for C7 at a concrete blank run. -/
theorem claim_C7_controls_invariant_witness :
    fetchWallpapers lcEq "" (.ok [])
      = some { requestMade := false, atRequest := none,
               trace := [idleCfg, doneCfg (.showingError blankMsg)],
               final := doneCfg (.showingError blankMsg) }
    ∧ ((∀ c ∈ ({ requestMade := false, atRequest := none,
                 trace := [idleCfg, doneCfg (.showingError blankMsg)],
                 final := doneCfg (.showingError blankMsg) } : Run).trace,
          ((c.inputEnabled && c.buttonEnabled) = true ↔ c.mode ≠ .loading))
      ∧ (({ requestMade := false, atRequest := none,
            trace := [idleCfg, doneCfg (.showingError blankMsg)],
            final := doneCfg (.showingError blankMsg) } : Run).requestMade = true →
          ({ requestMade := false, atRequest := none,
             trace := [idleCfg, doneCfg (.showingError blankMsg)],
             final := doneCfg (.showingError blankMsg) } : Run).atRequest = some loadingCfg)
      ∧ (jsTrim "" ≠ "" →
          ({ requestMade := false, atRequest := none,
             trace := [idleCfg, doneCfg (.showingError blankMsg)],
             final := doneCfg (.showingError blankMsg) } : Run).requestMade = true)
      ∧ ({ requestMade := false, atRequest := none,
           trace := [idleCfg, doneCfg (.showingError blankMsg)],
           final := doneCfg (.showingError blankMsg) } : Run).final.inputEnabled = true
      ∧ ({ requestMade := false, atRequest := none,
           trace := [idleCfg, doneCfg (.showingError blankMsg)],
           final := doneCfg (.showingError blankMsg) } : Run).final.buttonEnabled = true
      ∧ ({ requestMade := false, atRequest := none,
           trace := [idleCfg, doneCfg (.showingError blankMsg)],
           final := doneCfg (.showingError blankMsg) } : Run).final.mode ≠ .loading) :=
  ⟨by decide,
    claim_C7_controls_invariant lcEq "" (.ok [])
      { requestMade := false, atRequest := none,
        trace := [idleCfg, doneCfg (.showingError blankMsg)],
        final := doneCfg (.showingError blankMsg) } (by decide)⟩

/-- C1 counterexample: for the payload `{A: {display_title:"A",
wallpapers:[]}}` the render model is empty, yet the resulting UI state
is the results mode with an empty model, not the informational mode the
claim requires. -/
theorem claim_C1_counterexample :
    fetchWallpapers lcEq "user" (.ok [("A", .obj ⟨some "A", none, some []⟩)])
      = some { requestMade := true, atRequest := some loadingCfg,
               trace := [idleCfg, loadingCfg, doneCfg (.showingResults [])],
               final := doneCfg (.showingResults []) }
    ∧ isShowingInfo (UIMode.showingResults []) = false := by
  constructor
  · simp only [fetchWallpapers, processResponse, processOk, displayResults, transform,
      List.mergeSort_singleton]
    decide
  · decide

/-- C1 (amended): a group with an empty (or missing) items list never
appears in the render model; but a nonempty payload all of whose groups
are unrenderable yields `ShowingResults` with an empty model — an empty
results surface — not `ShowingInfo` (only a payload with no keys at all
reaches the informational fallback). -/
theorem claim_C1_amended (lc : String → String → Ordering) (data : Payload)
    (hguard : (decide (data.length ≤ 1) || data.all (fun e => (e.2.display_title).isSome)) = true) :
    (∀ m, displayResults lc data = some (.showingResults m) → ∀ g ∈ m, g.items ≠ [])
    ∧ (data ≠ [] → (∀ e ∈ data, renderable e = false) →
        displayResults lc data = some (.showingResults [])) := by
  constructor
  · intro m hm g hg
    unfold displayResults at hm
    rw [if_pos hguard] at hm
    split at hm
    · injection hm with hm2
      cases hm2
    · injection hm with hm2
      injection hm2 with hm3
      subst hm3
      rcases List.mem_map.mp hg with ⟨e, he, hge⟩
      have hr : renderable e = true := (List.mem_filter.mp he).2
      unfold renderable at hr
      rcases hw : e.2.wallpapers with _ | ws
      · rw [hw] at hr; simp at hr
      · rw [hw] at hr
        simp only [Bool.and_eq_true] at hr
        have hws : ws ≠ [] := by
          rcases ws with _ | ⟨w, rest⟩
          · simp at hr
          · nofun
        subst hge
        unfold mkGroup
        simp only [hw, Option.getD_some, ne_eq, List.map_eq_nil_iff]
        exact hws
  · intro hne hall
    unfold displayResults
    rw [if_pos hguard]
    rw [if_neg (by simpa [List.isEmpty_iff] using hne)]
    have : transform lc data = [] := by
      unfold transform
      rw [List.filter_eq_nil_iff]
      intro e he
      have : e ∈ data := List.mem_mergeSort.mp he
      simp [hall e this]
    rw [this]
    rfl

/-- Witness for C1 (amended) at a two-group payload, one group with an
empty wallpapers list and one missing it. -/
theorem claim_C1_amended_witness :
    ((decide (([("A", JVal.obj ⟨some "A", none, some []⟩), ("B", JVal.obj ⟨some "B", none, none⟩)] : Payload).length ≤ 1)
        || ([("A", JVal.obj ⟨some "A", none, some []⟩), ("B", JVal.obj ⟨some "B", none, none⟩)] : Payload).all (fun e => (e.2.display_title).isSome)) = true)
    ∧ ((∀ m, displayResults lcEq [("A", JVal.obj ⟨some "A", none, some []⟩), ("B", JVal.obj ⟨some "B", none, none⟩)] = some (.showingResults m) → ∀ g ∈ m, g.items ≠ [])
      ∧ (([("A", JVal.obj ⟨some "A", none, some []⟩), ("B", JVal.obj ⟨some "B", none, none⟩)] : Payload) ≠ [] →
          (∀ e ∈ ([("A", JVal.obj ⟨some "A", none, some []⟩), ("B", JVal.obj ⟨some "B", none, none⟩)] : Payload), renderable e = false) →
          displayResults lcEq [("A", JVal.obj ⟨some "A", none, some []⟩), ("B", JVal.obj ⟨some "B", none, none⟩)] = some (.showingResults []))) :=
  ⟨by decide,
    claim_C1_amended lcEq [("A", JVal.obj ⟨some "A", none, some []⟩), ("B", JVal.obj ⟨some "B", none, none⟩)] (by decide)⟩

/-- C2 counterexample: a payload whose single group is missing
`display_title` (but has wallpapers) is rendered rather than skipped —
the render model contains that group, with no title. -/
theorem claim_C2_counterexample :
    fetchWallpapers lcEq "u" (.ok [("A", .obj ⟨none, none, some [⟨"t", "f"⟩]⟩)])
      = some { requestMade := true, atRequest := some loadingCfg,
               trace := [idleCfg, loadingCfg,
                 doneCfg (.showingResults [⟨none, none, true, [⟨"t", "f", true⟩]⟩])],
               final := doneCfg (.showingResults [⟨none, none, true, [⟨"t", "f", true⟩]⟩]) }
    ∧ ([⟨none, none, true, [⟨"t", "f", true⟩]⟩] : List RenderedGroup) ≠ [] := by
  constructor
  · simp only [fetchWallpapers, processResponse, processOk, displayResults, transform,
      List.mergeSort_singleton]
    decide
  · decide

/-- C2 (amended): a group missing its `wallpapers` (items) field is
skipped and the skip is not fatal — the remaining well-formed groups are
still rendered and the outcome is the results mode, not an error; but a
group missing `display_title` is not skipped (it is rendered with an
undefined title, and with several groups present the title comparison
dereferences `undefined`). -/
theorem claim_C2_amended (lc : String → String → Ordering) (data : Payload)
    (htitles : data.all (fun e => (e.2.display_title).isSome) = true)
    (hne : data ≠ []) :
    displayResults lc data = some (.showingResults ((transform lc data).map mkGroup))
    ∧ (∀ e ∈ data, e.2.wallpapers = none → e ∉ transform lc data)
    ∧ (∀ e ∈ data, renderable e = true → mkGroup e ∈ (transform lc data).map mkGroup) := by
  refine ⟨?_, ?_, ?_⟩
  · unfold displayResults
    rw [if_pos (by simp [htitles])]
    rw [if_neg (by simpa [List.isEmpty_iff] using hne)]
  · intro e _ hw hmem
    have hr : renderable e = true := (List.mem_filter.mp hmem).2
    unfold renderable at hr
    rw [hw] at hr
    simp at hr
  · intro e he hr
    refine List.mem_map_of_mem mkGroup ?_
    exact List.mem_filter.mpr ⟨List.mem_mergeSort.mpr he, hr⟩

/-- Witness for C2 (amended): one group missing `wallpapers`, one
well-formed group; the former is skipped, the latter rendered. -/
theorem claim_C2_amended_witness :
    (([("A", JVal.obj ⟨some "A", none, none⟩), ("B", JVal.obj ⟨some "B", none, some [⟨"t", "f"⟩]⟩)] : Payload).all (fun e => (e.2.display_title).isSome) = true)
    ∧ (([("A", JVal.obj ⟨some "A", none, none⟩), ("B", JVal.obj ⟨some "B", none, some [⟨"t", "f"⟩]⟩)] : Payload) ≠ [])
    ∧ (displayResults lcEq [("A", JVal.obj ⟨some "A", none, none⟩), ("B", JVal.obj ⟨some "B", none, some [⟨"t", "f"⟩]⟩)]
          = some (.showingResults ((transform lcEq [("A", JVal.obj ⟨some "A", none, none⟩), ("B", JVal.obj ⟨some "B", none, some [⟨"t", "f"⟩]⟩)]).map mkGroup))
      ∧ (∀ e ∈ ([("A", JVal.obj ⟨some "A", none, none⟩), ("B", JVal.obj ⟨some "B", none, some [⟨"t", "f"⟩]⟩)] : Payload), e.2.wallpapers = none →
          e ∉ transform lcEq [("A", JVal.obj ⟨some "A", none, none⟩), ("B", JVal.obj ⟨some "B", none, some [⟨"t", "f"⟩]⟩)])
      ∧ (∀ e ∈ ([("A", JVal.obj ⟨some "A", none, none⟩), ("B", JVal.obj ⟨some "B", none, some [⟨"t", "f"⟩]⟩)] : Payload), renderable e = true →
          mkGroup e ∈ (transform lcEq [("A", JVal.obj ⟨some "A", none, none⟩), ("B", JVal.obj ⟨some "B", none, some [⟨"t", "f"⟩]⟩)]).map mkGroup)) :=
  ⟨by decide, by decide,
    claim_C2_amended lcEq [("A", JVal.obj ⟨some "A", none, none⟩), ("B", JVal.obj ⟨some "B", none, some [⟨"t", "f"⟩]⟩)] (by decide) (by decide)⟩

/-- C3: a failing thumbnail load hides exactly its own item: the item's
slot becomes invisible, every other group is untouched, the sibling
items and the header of its own group are unchanged, and the event never
introduces an error state. -/
theorem claim_C3_thumb_failure_local (m : List RenderedGroup) (g i : Nat)
    (grp : RenderedGroup) (it : RenderedItem)
    (hg : m[g]? = some grp) (hi : grp.items[i]? = some it) :
    itemAt (hideItem m g i) g i = some { it with visible := false }
    ∧ (∀ g2, g2 ≠ g → (hideItem m g i)[g2]? = m[g2]?)
    ∧ (∀ i2, i2 ≠ i → itemAt (hideItem m g i) g i2 = itemAt m g i2)
    ∧ ((hideItem m g i)[g]?).map
        (fun grp2 => (grp2.display_title, grp2.mal_cover, grp2.headerVisible))
      = some (grp.display_title, grp.mal_cover, grp.headerVisible)
    ∧ onThumbError (.showingResults m) g i = .showingResults (hideItem m g i)
    ∧ (∀ st : UIMode, isShowingError (onThumbError st g i) = isShowingError st) := by
  have hgrp : (hideItem m g i)[g]?
      = some { grp with items := modifyAt (fun item => { item with visible := false }) i grp.items } := by
    unfold hideItem
    rw [modifyAt_getElem?_self, hg]
    rfl
  refine ⟨?_, ?_, ?_, ?_, rfl, ?_⟩
  · unfold itemAt
    rw [hgrp]
    rw [Option.some_bind]
    rw [modifyAt_getElem?_self, hi]
    rfl
  · intro g2 hne
    unfold hideItem
    exact modifyAt_getElem?_ne _ g2 g m hne
  · intro i2 hne
    unfold itemAt
    rw [hgrp, hg]
    rw [Option.some_bind]
    exact modifyAt_getElem?_ne _ i2 i grp.items hne
  · rw [hgrp]
    rfl
  · intro st
    cases st <;> rfl

/-- Witness for C3: hiding item 0 of group 0 in a one-group, two-item
model. -/
theorem claim_C3_thumb_failure_local_witness :
    (([⟨some "T", none, true, [⟨"a", "b", true⟩, ⟨"c", "d", true⟩]⟩] : List RenderedGroup)[0]?
        = some ⟨some "T", none, true, [⟨"a", "b", true⟩, ⟨"c", "d", true⟩]⟩)
    ∧ ((⟨some "T", none, true, [⟨"a", "b", true⟩, ⟨"c", "d", true⟩]⟩ : RenderedGroup).items[0]?
        = some ⟨"a", "b", true⟩)
    ∧ (itemAt (hideItem [⟨some "T", none, true, [⟨"a", "b", true⟩, ⟨"c", "d", true⟩]⟩] 0 0) 0 0
          = some { (⟨"a", "b", true⟩ : RenderedItem) with visible := false }
      ∧ (∀ g2, g2 ≠ 0 →
          (hideItem [⟨some "T", none, true, [⟨"a", "b", true⟩, ⟨"c", "d", true⟩]⟩] 0 0)[g2]?
            = ([⟨some "T", none, true, [⟨"a", "b", true⟩, ⟨"c", "d", true⟩]⟩] : List RenderedGroup)[g2]?)
      ∧ (∀ i2, i2 ≠ 0 →
          itemAt (hideItem [⟨some "T", none, true, [⟨"a", "b", true⟩, ⟨"c", "d", true⟩]⟩] 0 0) 0 i2
            = itemAt [⟨some "T", none, true, [⟨"a", "b", true⟩, ⟨"c", "d", true⟩]⟩] 0 i2)
      ∧ ((hideItem [⟨some "T", none, true, [⟨"a", "b", true⟩, ⟨"c", "d", true⟩]⟩] 0 0)[0]?).map
            (fun grp2 => (grp2.display_title, grp2.mal_cover, grp2.headerVisible))
          = some ((⟨some "T", none, true, [⟨"a", "b", true⟩, ⟨"c", "d", true⟩]⟩ : RenderedGroup).display_title,
              (⟨some "T", none, true, [⟨"a", "b", true⟩, ⟨"c", "d", true⟩]⟩ : RenderedGroup).mal_cover,
              (⟨some "T", none, true, [⟨"a", "b", true⟩, ⟨"c", "d", true⟩]⟩ : RenderedGroup).headerVisible)
      ∧ onThumbError (.showingResults [⟨some "T", none, true, [⟨"a", "b", true⟩, ⟨"c", "d", true⟩]⟩]) 0 0
          = .showingResults (hideItem [⟨some "T", none, true, [⟨"a", "b", true⟩, ⟨"c", "d", true⟩]⟩] 0 0)
      ∧ (∀ st : UIMode, isShowingError (onThumbError st 0 0) = isShowingError st)) :=
  ⟨rfl, rfl,
    claim_C3_thumb_failure_local
      [⟨some "T", none, true, [⟨"a", "b", true⟩, ⟨"c", "d", true⟩]⟩] 0 0
      ⟨some "T", none, true, [⟨"a", "b", true⟩, ⟨"c", "d", true⟩]⟩ ⟨"a", "b", true⟩ rfl rfl⟩

/-- C8: for every total, transitive locale comparison, the sorted entry
sequence of `displayResults` is ascending by display title, is a
permutation of the payload's entries, keeps entries whose titles compare
equal under the comparison — the comparator's ties, not merely literally
equal titles — in their original key order (stability), and is exactly
the sequence the render model is built from. -/
theorem claim_C8_sorted_stable (lc : String → String → Ordering) (data : Payload)
    (htrans : ∀ s t u : String,
      leOrd lc s t = true → leOrd lc t u = true → leOrd lc s u = true)
    (htot : ∀ s t : String, (leOrd lc s t || leOrd lc t s) = true) :
    (data.mergeSort (titleLe lc)).Pairwise (fun a b => titleLe lc a b = true)
    ∧ (data.mergeSort (titleLe lc)).Perm data
    ∧ (∀ t, (data.mergeSort (titleLe lc)).filter (fun e => ordTie lc (titleKey e) t)
          = data.filter (fun e => ordTie lc (titleKey e) t))
    ∧ (data ≠ [] → data.all (fun e => (e.2.display_title).isSome) = true →
        displayResults lc data = some (.showingResults ((transform lc data).map mkGroup))) := by
  have etrans : ∀ a b c2 : String × JVal,
      titleLe lc a b = true → titleLe lc b c2 = true → titleLe lc a c2 = true :=
    fun a b c2 h1 h2 => htrans (titleKey a) (titleKey b) (titleKey c2) h1 h2
  have etot : ∀ a b : String × JVal, (titleLe lc a b || titleLe lc b a) = true :=
    fun a b => htot (titleKey a) (titleKey b)
  refine ⟨List.sorted_mergeSort etrans etot data, List.mergeSort_perm data (titleLe lc), ?_, ?_⟩
  · intro t
    have hpair : (data.filter (fun e => ordTie lc (titleKey e) t)).Pairwise
        (fun a b => titleLe lc a b = true) := by
      apply List.pairwise_of_forall_mem_list
      intro a ha b hb
      have pa := (List.mem_filter.mp ha).2
      have pb := (List.mem_filter.mp hb).2
      simp only [ordTie, Bool.and_eq_true] at pa pb
      exact htrans (titleKey a) t (titleKey b) pa.1 pb.2
    have hsub2 : List.Sublist (data.filter (fun e => ordTie lc (titleKey e) t))
        (data.mergeSort (titleLe lc)) :=
      List.sublist_mergeSort etrans etot hpair (List.filter_sublist data)
    have hsub3 := hsub2.filter (fun e => ordTie lc (titleKey e) t)
    rw [List.filter_filter] at hsub3
    simp only [Bool.and_self] at hsub3
    have hlen := (List.Perm.filter (fun e => ordTie lc (titleKey e) t)
      (List.mergeSort_perm data (titleLe lc))).length_eq
    exact (List.Sublist.eq_of_length hsub3 hlen.symm).symm
  · intro hne hall
    unfold displayResults
    rw [if_pos (by simp [hall])]
    rw [if_neg (by simpa [List.isEmpty_iff] using hne)]

/-- Witness for C8 with the constant-`eq` comparator (every pair of
titles ties, so the stability conjunct pins the whole input order) and a
two-entry payload of distinct titles. -/
theorem claim_C8_sorted_stable_witness :
    (∀ s t u : String,
      leOrd lcEq s t = true → leOrd lcEq t u = true → leOrd lcEq s u = true)
    ∧ (∀ s t : String, (leOrd lcEq s t || leOrd lcEq t s) = true)
    ∧ ((([("B", JVal.obj ⟨some "B", none, some [⟨"t", "f"⟩]⟩), ("A", JVal.obj ⟨some "A", none, some [⟨"u", "g"⟩]⟩)] : Payload).mergeSort (titleLe lcEq)).Pairwise (fun a b => titleLe lcEq a b = true)
      ∧ (([("B", JVal.obj ⟨some "B", none, some [⟨"t", "f"⟩]⟩), ("A", JVal.obj ⟨some "A", none, some [⟨"u", "g"⟩]⟩)] : Payload).mergeSort (titleLe lcEq)).Perm [("B", JVal.obj ⟨some "B", none, some [⟨"t", "f"⟩]⟩), ("A", JVal.obj ⟨some "A", none, some [⟨"u", "g"⟩]⟩)]
      ∧ (∀ t, (([("B", JVal.obj ⟨some "B", none, some [⟨"t", "f"⟩]⟩), ("A", JVal.obj ⟨some "A", none, some [⟨"u", "g"⟩]⟩)] : Payload).mergeSort (titleLe lcEq)).filter (fun e => ordTie lcEq (titleKey e) t)
            = ([("B", JVal.obj ⟨some "B", none, some [⟨"t", "f"⟩]⟩), ("A", JVal.obj ⟨some "A", none, some [⟨"u", "g"⟩]⟩)] : Payload).filter (fun e => ordTie lcEq (titleKey e) t))
      ∧ (([("B", JVal.obj ⟨some "B", none, some [⟨"t", "f"⟩]⟩), ("A", JVal.obj ⟨some "A", none, some [⟨"u", "g"⟩]⟩)] : Payload) ≠ [] →
          ([("B", JVal.obj ⟨some "B", none, some [⟨"t", "f"⟩]⟩), ("A", JVal.obj ⟨some "A", none, some [⟨"u", "g"⟩]⟩)] : Payload).all (fun e => (e.2.display_title).isSome) = true →
          displayResults lcEq [("B", JVal.obj ⟨some "B", none, some [⟨"t", "f"⟩]⟩), ("A", JVal.obj ⟨some "A", none, some [⟨"u", "g"⟩]⟩)]
            = some (.showingResults ((transform lcEq [("B", JVal.obj ⟨some "B", none, some [⟨"t", "f"⟩]⟩), ("A", JVal.obj ⟨some "A", none, some [⟨"u", "g"⟩]⟩)]).map mkGroup)))) :=
  ⟨fun _ _ _ _ _ => rfl, fun _ _ => rfl,
    claim_C8_sorted_stable lcEq
      [("B", JVal.obj ⟨some "B", none, some [⟨"t", "f"⟩]⟩), ("A", JVal.obj ⟨some "A", none, some [⟨"u", "g"⟩]⟩)]
      (fun _ _ _ _ _ => rfl) (fun _ _ => rfl)⟩

/-- C9: the order-and-filter transform is deterministic (two calls on
the same input agree) and idempotent (re-applying it to its own output
changes nothing), for every total, transitive locale comparison. -/
theorem claim_C9_transform_idempotent (lc : String → String → Ordering) (data : Payload)
    (htrans : ∀ a b c2 : String × JVal,
      titleLe lc a b = true → titleLe lc b c2 = true → titleLe lc a c2 = true)
    (htot : ∀ a b : String × JVal, (titleLe lc a b || titleLe lc b a) = true) :
    transform lc data = transform lc data
    ∧ transform lc (transform lc data) = transform lc data := by
  refine ⟨rfl, ?_⟩
  have hsorted : (data.mergeSort (titleLe lc)).Pairwise (fun a b => titleLe lc a b = true) :=
    List.sorted_mergeSort htrans htot data
  have hsorted2 : (transform lc data).Pairwise (fun a b => titleLe lc a b = true) :=
    hsorted.sublist (List.filter_sublist _)
  conv_lhs => rw [transform]
  rw [List.mergeSort_of_sorted hsorted2]
  conv_lhs => rw [transform]
  rw [List.filter_filter]
  simp only [Bool.and_self]
  rfl

/-- Witness for C9 with the constant-`eq` comparator and a concrete
payload. -/
theorem claim_C9_transform_idempotent_witness :
    (∀ a b c2 : String × JVal,
      titleLe lcEq a b = true → titleLe lcEq b c2 = true → titleLe lcEq a c2 = true)
    ∧ (∀ a b : String × JVal, (titleLe lcEq a b || titleLe lcEq b a) = true)
    ∧ (transform lcEq [("A", JVal.obj ⟨some "A", none, some [⟨"t", "f"⟩]⟩), ("B", JVal.obj ⟨some "B", none, some []⟩)]
          = transform lcEq [("A", JVal.obj ⟨some "A", none, some [⟨"t", "f"⟩]⟩), ("B", JVal.obj ⟨some "B", none, some []⟩)]
      ∧ transform lcEq (transform lcEq [("A", JVal.obj ⟨some "A", none, some [⟨"t", "f"⟩]⟩), ("B", JVal.obj ⟨some "B", none, some []⟩)])
          = transform lcEq [("A", JVal.obj ⟨some "A", none, some [⟨"t", "f"⟩]⟩), ("B", JVal.obj ⟨some "B", none, some []⟩)]) :=
  ⟨fun _ _ _ _ _ => rfl, fun _ _ => rfl,
    claim_C9_transform_idempotent lcEq
      [("A", JVal.obj ⟨some "A", none, some [⟨"t", "f"⟩]⟩), ("B", JVal.obj ⟨some "B", none, some []⟩)]
      (fun _ _ _ _ _ => rfl) (fun _ _ => rfl)⟩

end MWF
